import Mathlib

/-!
Verification of the ETH-transfer client
(`level2-send-eth-transfer/src/main.rs`).

The Rust code is shallowly embedded: every fallible remote call the
pipeline performs (nonce fetch, base gas price, gas simulation, balance
lookup, broadcast, receipt wait) is an `Except String _` value supplied by
an environment record, and the pipeline is a pure Lean function of that
environment.  U256 quantities are `Nat`; the `primitive-types` U256
operators panic on overflow, so each `*` / `+` on them is a checked
operation returning `Option Nat` (`none` = panic), and the pipeline result
is `Option (Except ...)` with `none` marking an arithmetic panic.
-/

/-- The modulus 2^256 of the Rust `U256` type (written as a decimal
literal so that arithmetic against it stays on binary literals). -/
@[reducible] def U256MOD : Nat :=
  115792089237316195423570985008687907853269984665640564039457584007913129639936

/-- Checked U256 multiplication: `primitive-types` panics on overflow, so
the panicking case is `none`. -/
def cmul (a b : Nat) : Option Nat :=
  if a * b < U256MOD then some (a * b) else none

/-- Checked U256 addition: panic on overflow is `none`. -/
def cadd (a b : Nat) : Option Nat :=
  if a + b < U256MOD then some (a + b) else none

/-- Numeric value of a list of decimal digit characters (most significant
first), as folded up by the parser. -/
def digitsVal (l : List Char) : Nat :=
  l.foldl (fun a c => a * 10 + (c.toNat - 48)) 0

/-- Split a character list at the first `'.'`: the part before it, and
(when a dot is present) the part after it. -/
def splitDot : List Char → List Char × Option (List Char)
  | [] => ([], none)
  | c :: cs =>
    if c = '.' then ([], some cs)
    else
      let r := splitDot cs
      (c :: r.1, r.2)

/-- Modelled from the spec: the amount parser used at
`main.rs:131` is `ethers::utils::parse_units(amount_eth, "ether")`, a
library function whose source is not part of this repository.  The spec
describes it as parsing "a non-negative decimal" amount into the smallest
unit (wei, 18 fractional digits): an optional integer part and an optional
fractional part of at most 18 decimal digits, at least one digit in total,
scaled by 10^18.  Anything else is a parse error (the Rust code attaches
the context `金额格式无效`). -/
def parseUnitsEther (s : String) : Except String Nat :=
  let p := splitDot s.data
  match p.2 with
  | none =>
    if p.1 ≠ [] ∧ p.1.all Char.isDigit then
      Except.ok (digitsVal p.1 * 10 ^ 18)
    else Except.error "金额格式无效"
  | some fp =>
    if (p.1 ++ fp) ≠ [] ∧ (p.1 ++ fp).all Char.isDigit ∧ fp.length ≤ 18 then
      Except.ok (digitsVal p.1 * 10 ^ 18 + digitsVal fp * 10 ^ (18 - fp.length))
    else Except.error "金额格式无效"

/-- Value of a hexadecimal digit character, `none` when not a hex digit. -/
def hexDigitVal (c : Char) : Option Nat :=
  if '0' ≤ c ∧ c ≤ '9' then some (c.toNat - 48)
  else if 'a' ≤ c ∧ c ≤ 'f' then some (c.toNat - 87)
  else if 'A' ≤ c ∧ c ≤ 'F' then some (c.toNat - 55)
  else none

/-- `Address::from_str` (`main.rs:17`): a 160-bit account identifier
parsed from 40 hexadecimal characters with an optional `0x` prefix;
addresses are modelled as their numeric value, the zero address being
`0`. -/
def addressFromStr (s : String) : Except String Nat :=
  let cs := s.data
  let body := if cs.take 2 = ['0', 'x'] then cs.drop 2 else cs
  if body.length = 40 ∧ body.all (fun c => (hexDigitVal c).isSome) then
    Except.ok (body.foldl (fun a c => a * 16 + (hexDigitVal c).getD 0) 0)
  else Except.error ("无效的地址格式: " ++ s)

/-- `validate_address` (`main.rs:16-26`): parse the address string, then
reject the all-zero address. -/
def validate_address (s : String) : Except String Nat :=
  match addressFromStr s with
  | Except.error e => Except.error e
  | Except.ok a =>
    if a = 0 then Except.error "地址不能为零地址"
    else Except.ok a

/-- `get_gas_price_with_premium` (`main.rs:74-85`): the endpoint's base
gas price with a +10% premium, `base_gas_price * 110 / 100` in U256
arithmetic (the multiplication may panic, hence the outer `Option`).  The
argument is the outcome of the endpoint's `get_gas_price` call. -/
def get_gas_price_with_premium (base : Except String Nat) :
    Option (Except String Nat) :=
  match base with
  | Except.error e => some (Except.error ("获取 Gas 价格失败: " ++ e))
  | Except.ok bp =>
    Option.map (fun p => Except.ok (p / 100)) (cmul bp 110)

/-- The gas estimate actually used by `estimate_gas_limit`
(`main.rs:104-106`): the endpoint's simulated estimate on success,
`21000` on any failure (`unwrap_or_else`). -/
def rawEstimate (est : Except String Nat) : Nat :=
  match est with
  | Except.ok g => g
  | Except.error _ => 21000

/-- `estimate_gas_limit` (`main.rs:88-112`): the raw estimate (with the
21000 fallback) with a +20% buffer, `gas_limit * 120 / 100` in U256
arithmetic (the multiplication may panic, hence the `Option`).  The
argument is the outcome of the endpoint's `estimate_gas` call. -/
def estimate_gas_limit (est : Except String Nat) : Option Nat :=
  Option.map (fun g => g / 100) (cmul (rawEstimate est) 120)

instance instDecEqExcept {ε α : Type} [DecidableEq ε] [DecidableEq α] :
    DecidableEq (Except ε α) := fun a b =>
  match a, b with
  | Except.error e, Except.error f =>
    if h : e = f then Decidable.isTrue (h ▸ rfl)
    else Decidable.isFalse (fun hh => h (by injection hh))
  | Except.error _, Except.ok _ =>
    Decidable.isFalse (fun hh => Except.noConfusion hh)
  | Except.ok _, Except.error _ =>
    Decidable.isFalse (fun hh => Except.noConfusion hh)
  | Except.ok v, Except.ok w =>
    if h : v = w then Decidable.isTrue (h ▸ rfl)
    else Decidable.isFalse (fun hh => h (by injection hh))

/-- `TransactionReceipt` as inspected at `main.rs:199-215`: optional block
number, gas used and status (`status.unwrap_or_default() == 1` marks
success). -/
structure Receipt where
  blockNumber : Option Nat
  gasUsed : Option Nat
  status : Option Nat
deriving DecidableEq, Repr

/-- The remote operations `send_eth_transfer` performs, in the order the
code performs them; recorded as a trace so that claims about step order
and about calls never being made can be stated. -/
inductive Step where
  | getNonce
  | getGasPrice
  | estimateGas
  | getBalance
  | sendRawTransaction
  | waitReceipt
deriving DecidableEq, Repr

/-- The outcomes of each remote call, supplied by the test environment;
`send_eth_transfer` consumes them in program order. -/
structure Env where
  nonce : Except String Nat
  baseGasPrice : Except String Nat
  gasEstimate : Except String Nat
  balance : Except String Nat
  sendTx : Except String Nat
  waitReceipt : Except String (Option Receipt)

/-- The distinct error exits of `send_eth_transfer`, one constructor per
`return Err`/`?` site, carrying the contextual data the Rust error
carries.  `insufficientFunds` (`main.rs:166-175`) carries the balance, the
total cost and the shortfall `total_cost - balance` that the Rust message
formats. -/
inductive TxError where
  | validation (msg : String)
  | nonceFetch (msg : String)
  | gasPriceFetch (msg : String)
  | balanceFetch (msg : String)
  | insufficientFunds (balance totalCost shortfall : Nat)
  | sendFailed (msg : String)
  | confirmWaitFailed (msg : String)
deriving DecidableEq, Repr

/-- What the receipt branch (`main.rs:199-215`) reports after a
successful broadcast: the printed `成功` line is `confirmed`, the printed
`失败` line is `failed`, and an absent receipt is `noReceipt`. -/
inductive ConfirmOutcome where
  | confirmed
  | failed
  | noReceipt
deriving DecidableEq, Repr

/-- The observable behaviour of one `send_eth_transfer` run: the ordered
list of remote operations invoked, and the result — `none` when a U256
operation panicked, otherwise the returned transaction hash (modelled as
the `Nat` the environment's send operation yields) together with the
reported confirmation outcome, or the error. -/
structure RunResult where
  trace : List Step
  result : Option (Except TxError (Nat × ConfirmOutcome))
deriving DecidableEq, Repr

/-- Continue a run after a fallible remote call: the error continuation on
`Except.error`, the success continuation on `Except.ok`. -/
def stepExcept {α : Type} (r : Except String α) (err : String → RunResult)
    (ok : α → RunResult) : RunResult :=
  match r with
  | Except.error e => err e
  | Except.ok v => ok v

/-- Continue a run after a checked U256 operation (or other optional
value): the first continuation when absent, the second on a value. -/
def stepOption {α : Type} (r : Option α) (onNone : RunResult)
    (onSome : α → RunResult) : RunResult :=
  match r with
  | none => onNone
  | some v => onSome v

/-- `send_eth_transfer` (`main.rs:115-218`), step for step: parse the
amount (`parse_units`, line 131), fetch the nonce (135), compute the gas
price with premium (140), estimate the gas limit (143), compute
`estimated_fee = gas_price * gas_limit` (158), fetch the balance (163),
compute `total_cost = amount_wei + estimated_fee` (164), fail with the
insufficient-funds error when `balance < total_cost` (166-175), otherwise
broadcast (187) and wait for the receipt (195), classifying the receipt
status (199-215).  The destination address is never inspected; the nonce
value is bound but does not influence the observable result. -/
def send_eth_transfer (toAddress : Nat) (amountEth : String) (env : Env) :
    RunResult :=
  let _ := toAddress
  stepExcept (parseUnitsEther amountEth)
    (fun e => ⟨[], some (Except.error (TxError.validation e))⟩)
    (fun amountWei =>
      stepExcept env.nonce
        (fun e => ⟨[Step.getNonce],
          some (Except.error (TxError.nonceFetch e))⟩)
        (fun _ =>
          stepOption (get_gas_price_with_premium env.baseGasPrice)
            ⟨[Step.getNonce, Step.getGasPrice], none⟩
            (fun priced =>
              stepExcept priced
                (fun e => ⟨[Step.getNonce, Step.getGasPrice],
                  some (Except.error (TxError.gasPriceFetch e))⟩)
                (fun gasPrice =>
                  stepOption (estimate_gas_limit env.gasEstimate)
                    ⟨[Step.getNonce, Step.getGasPrice, Step.estimateGas],
                      none⟩
                    (fun gasLimit =>
                      stepOption (cmul gasPrice gasLimit)
                        ⟨[Step.getNonce, Step.getGasPrice, Step.estimateGas],
                          none⟩
                        (fun estimatedFee =>
                          stepExcept env.balance
                            (fun e =>
                              ⟨[Step.getNonce, Step.getGasPrice,
                                 Step.estimateGas, Step.getBalance],
                                some (Except.error (TxError.balanceFetch e))⟩)
                            (fun balance =>
                              stepOption (cadd amountWei estimatedFee)
                                ⟨[Step.getNonce, Step.getGasPrice,
                                   Step.estimateGas, Step.getBalance], none⟩
                                (fun totalCost =>
                                  if balance < totalCost then
                                    ⟨[Step.getNonce, Step.getGasPrice,
                                       Step.estimateGas, Step.getBalance],
                                      some (Except.error
                                        (TxError.insufficientFunds balance
                                          totalCost (totalCost - balance)))⟩
                                  else
                                    stepExcept env.sendTx
                                      (fun e =>
                                        ⟨[Step.getNonce, Step.getGasPrice,
                                           Step.estimateGas, Step.getBalance,
                                           Step.sendRawTransaction],
                                          some (Except.error
                                            (TxError.sendFailed e))⟩)
                                      (fun txHash =>
                                        stepExcept env.waitReceipt
                                          (fun e =>
                                            ⟨[Step.getNonce, Step.getGasPrice,
                                               Step.estimateGas,
                                               Step.getBalance,
                                               Step.sendRawTransaction,
                                               Step.waitReceipt],
                                              some (Except.error
                                                (TxError.confirmWaitFailed
                                                  e))⟩)
                                          (fun orc =>
                                            stepOption orc
                                              ⟨[Step.getNonce,
                                                 Step.getGasPrice,
                                                 Step.estimateGas,
                                                 Step.getBalance,
                                                 Step.sendRawTransaction,
                                                 Step.waitReceipt],
                                                some (Except.ok (txHash,
                                                  ConfirmOutcome.noReceipt))⟩
                                              (fun rc =>
                                                ⟨[Step.getNonce,
                                                   Step.getGasPrice,
                                                   Step.estimateGas,
                                                   Step.getBalance,
                                                   Step.sendRawTransaction,
                                                   Step.waitReceipt],
                                                  some (Except.ok (txHash,
                                                    if rc.status.getD 0 = 1
                                                    then
                                                      ConfirmOutcome.confirmed
                                                    else
                                                      ConfirmOutcome.failed))⟩)))))))))))

/-- `cmul` on small enough factors is just multiplication. -/
theorem cmul_eq_some (a b : Nat) (h : a * b < U256MOD) :
    cmul a b = some (a * b) := by
  simp [cmul, h]

/-- `cadd` on small enough summands is just addition. -/
theorem cadd_eq_some (a b : Nat) (h : a + b < U256MOD) :
    cadd a b = some (a + b) := by
  simp [cadd, h]

/-- C3: `estimate_gas_limit` returns the simulated estimate with the +20%
buffer (`g * 120 / 100`) when the endpoint's gas simulation succeeds, and
`21000 * 120 / 100 = 25200` when the simulation fails for any reason. -/
theorem estimateGasLimit_buffer_and_fallback (g : Nat) (msg : String)
    (h : g * 120 < U256MOD) :
    estimate_gas_limit (Except.ok g) = some (g * 120 / 100) ∧
      estimate_gas_limit (Except.error msg) = some 25200 := by
  have h21 : (21000 : Nat) * 120 < U256MOD := by norm_num
  constructor
  · simp [estimate_gas_limit, rawEstimate, cmul_eq_some _ _ h]
  · simp [estimate_gas_limit, rawEstimate, cmul_eq_some _ _ h21]

/-- Witness for C3 at a concrete estimate. -/
theorem estimateGasLimit_buffer_and_fallback_case :
    estimate_gas_limit (Except.ok 30000) = some 36000 ∧
      estimate_gas_limit (Except.error "est err") = some 25200 := by
  have h := estimateGasLimit_buffer_and_fallback 30000 "est err" (by norm_num)
  exact ⟨h.1, h.2⟩

/-- C4: `get_gas_price_with_premium` returns exactly
`base * 110 / 100` (truncating division); in particular a base price of
1,000,000,000 yields 1,100,000,000. -/
theorem gasPricePremium_exact (bp : Nat) (h : bp * 110 < U256MOD) :
    get_gas_price_with_premium (Except.ok bp) =
        some (Except.ok (bp * 110 / 100)) ∧
      get_gas_price_with_premium (Except.ok 1000000000) =
        some (Except.ok 1100000000) := by
  have h9 : (1000000000 : Nat) * 110 < U256MOD := by norm_num
  constructor
  · simp [get_gas_price_with_premium, cmul_eq_some _ _ h]
  · simp [get_gas_price_with_premium, cmul_eq_some _ _ h9]

/-- Witness for C4 at a concrete base price. -/
theorem gasPricePremium_exact_case :
    get_gas_price_with_premium (Except.ok 7) = some (Except.ok 7) ∧
      get_gas_price_with_premium (Except.ok 1000000000) =
        some (Except.ok 1100000000) := by
  have h := gasPricePremium_exact 7 (by norm_num)
  exact ⟨h.1, h.2⟩

/-- C7: for every input string that parses to the all-zero address,
`validate_address` returns the zero-address rejection error, independent
of any balance or amount: the zero address is never accepted as a
transfer destination. -/
theorem validateAddress_rejects_zero (s : String)
    (h : addressFromStr s = Except.ok 0) :
    validate_address s = Except.error "地址不能为零地址" := by
  simp [validate_address, h]

/-- Witness for C7: the canonical zero-address string is rejected. -/
theorem validateAddress_rejects_zero_case :
    addressFromStr "0x0000000000000000000000000000000000000000" =
        Except.ok 0 ∧
      validate_address "0x0000000000000000000000000000000000000000" =
        Except.error "地址不能为零地址" := by
  have h : addressFromStr "0x0000000000000000000000000000000000000000" =
      Except.ok 0 := by decide
  exact ⟨h, validateAddress_rejects_zero _ h⟩

/-- C9: for every amount string the parser rejects, `send_eth_transfer`
fails with the validation error before any remote call: the trace is
empty, so in particular no signing or broadcast occurs. -/
theorem sendEthTransfer_malformed_amount (toAddr : Nat) (s msg : String)
    (env : Env) (h : parseUnitsEther s = Except.error msg) :
    send_eth_transfer toAddr s env =
      ⟨[], some (Except.error (TxError.validation msg))⟩ := by
  simp [send_eth_transfer, stepExcept, h]

/-- Witness for C9: a negative decimal amount is rejected before any
remote call. -/
theorem sendEthTransfer_malformed_amount_case :
    parseUnitsEther "-1" = Except.error "金额格式无效" ∧
      send_eth_transfer 5 "-1"
          ⟨Except.ok 0, Except.ok 1, Except.ok 21000, Except.ok 0,
            Except.ok 0, Except.ok none⟩ =
        ⟨[], some (Except.error (TxError.validation "金额格式无效"))⟩ := by
  have h : parseUnitsEther "-1" = Except.error "金额格式无效" := by decide
  exact ⟨h, sendEthTransfer_malformed_amount 5 "-1" "金额格式无效" _ h⟩

/-- C1: whenever the fetched balance is strictly below
`value + gasPrice * gasLimit` (the gas price and limit being the premium
and buffered values the pipeline computed), `send_eth_transfer` returns
the insufficient-funds error and the send operation is never invoked: the
trace stops at the balance query, so no transaction hash is produced and
no signing or broadcast occurs. -/
theorem sendEthTransfer_insufficient_no_broadcast (toAddr : Nat)
    (s : String) (v n bp b : Nat) (ge st : Except String Nat)
    (wr : Except String (Option Receipt))
    (hs : parseUnitsEther s = Except.ok v)
    (h1 : bp * 110 < U256MOD)
    (h2 : rawEstimate ge * 120 < U256MOD)
    (h3 : bp * 110 / 100 * (rawEstimate ge * 120 / 100) < U256MOD)
    (h4 : v + bp * 110 / 100 * (rawEstimate ge * 120 / 100) < U256MOD)
    (hlt : b < v + bp * 110 / 100 * (rawEstimate ge * 120 / 100)) :
    (send_eth_transfer toAddr s
        ⟨Except.ok n, Except.ok bp, ge, Except.ok b, st, wr⟩).result =
      some (Except.error (TxError.insufficientFunds b
        (v + bp * 110 / 100 * (rawEstimate ge * 120 / 100))
        (v + bp * 110 / 100 * (rawEstimate ge * 120 / 100) - b))) ∧
    Step.sendRawTransaction ∉
      (send_eth_transfer toAddr s
        ⟨Except.ok n, Except.ok bp, ge, Except.ok b, st, wr⟩).trace := by
  simp [send_eth_transfer, stepExcept, stepOption, get_gas_price_with_premium,
    estimate_gas_limit, hs, cmul_eq_some _ _ h1, cmul_eq_some _ _ h2,
    cmul_eq_some _ _ h3, cadd_eq_some _ _ h4, hlt]

/-- Witness for C1 with a zero balance. -/
theorem sendEthTransfer_insufficient_no_broadcast_case :
    (send_eth_transfer 1 "1"
        ⟨Except.ok 0, Except.ok 1000000000, Except.ok 21000, Except.ok 0,
          Except.ok 9, Except.ok none⟩).result =
      some (Except.error (TxError.insufficientFunds 0
        1000027720000000000 1000027720000000000)) ∧
    Step.sendRawTransaction ∉
      (send_eth_transfer 1 "1"
        ⟨Except.ok 0, Except.ok 1000000000, Except.ok 21000, Except.ok 0,
          Except.ok 9, Except.ok none⟩).trace := by
  have h := sendEthTransfer_insufficient_no_broadcast 1 "1"
    1000000000000000000 0 1000000000 0 (Except.ok 21000) (Except.ok 9)
    (Except.ok none) (by decide) (by decide) (by decide) (by decide)
    (by decide) (by decide)
  simpa [rawEstimate] using h

/-- C2: whenever the fetched balance is at least
`value + gasPrice * gasLimit` and every remote call succeeds,
`send_eth_transfer` does not raise the insufficient-funds error: it
proceeds to sign and broadcast (the send operation appears in the trace)
and returns the transaction hash with the receipt's outcome. -/
theorem sendEthTransfer_sufficient_broadcasts (toAddr : Nat)
    (s : String) (v n bp b txh : Nat) (ge : Except String Nat)
    (rc : Receipt)
    (hs : parseUnitsEther s = Except.ok v)
    (h1 : bp * 110 < U256MOD)
    (h2 : rawEstimate ge * 120 < U256MOD)
    (h3 : bp * 110 / 100 * (rawEstimate ge * 120 / 100) < U256MOD)
    (h4 : v + bp * 110 / 100 * (rawEstimate ge * 120 / 100) < U256MOD)
    (hge : v + bp * 110 / 100 * (rawEstimate ge * 120 / 100) ≤ b) :
    (send_eth_transfer toAddr s
        ⟨Except.ok n, Except.ok bp, ge, Except.ok b, Except.ok txh,
          Except.ok (some rc)⟩).result =
      some (Except.ok (txh,
        if rc.status.getD 0 = 1 then ConfirmOutcome.confirmed
        else ConfirmOutcome.failed)) ∧
    Step.sendRawTransaction ∈
      (send_eth_transfer toAddr s
        ⟨Except.ok n, Except.ok bp, ge, Except.ok b, Except.ok txh,
          Except.ok (some rc)⟩).trace := by
  have hnl : ¬ b < v + bp * 110 / 100 * (rawEstimate ge * 120 / 100) :=
    Nat.not_lt.mpr hge
  simp [send_eth_transfer, stepExcept, stepOption, get_gas_price_with_premium,
    estimate_gas_limit, hs, cmul_eq_some _ _ h1, cmul_eq_some _ _ h2,
    cmul_eq_some _ _ h3, cadd_eq_some _ _ h4, hnl]

/-- Witness for C2 with an ample balance and a success receipt. -/
theorem sendEthTransfer_sufficient_broadcasts_case :
    (send_eth_transfer 5 "1"
        ⟨Except.ok 0, Except.ok 1000000000, Except.ok 21000,
          Except.ok 2000000000000000000, Except.ok 77,
          Except.ok (some ⟨none, none, some 1⟩)⟩).result =
      some (Except.ok (77, ConfirmOutcome.confirmed)) ∧
    Step.sendRawTransaction ∈
      (send_eth_transfer 5 "1"
        ⟨Except.ok 0, Except.ok 1000000000, Except.ok 21000,
          Except.ok 2000000000000000000, Except.ok 77,
          Except.ok (some ⟨none, none, some 1⟩)⟩).trace := by
  have h := sendEthTransfer_sufficient_broadcasts 5 "1"
    1000000000000000000 0 1000000000 2000000000000000000 77
    (Except.ok 21000) ⟨none, none, some 1⟩ (by decide) (by decide)
    (by decide) (by decide) (by decide) (by decide)
  simpa using h


/-- C5: after a successful broadcast (balance sufficient, every earlier
call succeeding), a receipt whose status is success yields the
`confirmed` outcome and a receipt whose status is any failure value
yields the distinct `failed` outcome, both as ordinary returned results
(`Except.ok`), not errors; a failure of the receipt wait itself yields
the confirmation-wait error, a defined result (no panic) distinct from
the broadcast-rejection error. -/
theorem confirmation_outcomes (toAddr : Nat) (s : String)
    (v n bp b txh : Nat) (ge : Except String Nat) (bn gu : Option Nat)
    (sv : Nat) (e : String)
    (hs : parseUnitsEther s = Except.ok v)
    (h1 : bp * 110 < U256MOD)
    (h2 : rawEstimate ge * 120 < U256MOD)
    (h3 : bp * 110 / 100 * (rawEstimate ge * 120 / 100) < U256MOD)
    (h4 : v + bp * 110 / 100 * (rawEstimate ge * 120 / 100) < U256MOD)
    (hge : v + bp * 110 / 100 * (rawEstimate ge * 120 / 100) ≤ b)
    (hsv : sv ≠ 1) :
    (send_eth_transfer toAddr s
        ⟨Except.ok n, Except.ok bp, ge, Except.ok b, Except.ok txh,
          Except.ok (some ⟨bn, gu, some 1⟩)⟩).result =
      some (Except.ok (txh, ConfirmOutcome.confirmed)) ∧
    (send_eth_transfer toAddr s
        ⟨Except.ok n, Except.ok bp, ge, Except.ok b, Except.ok txh,
          Except.ok (some ⟨bn, gu, some sv⟩)⟩).result =
      some (Except.ok (txh, ConfirmOutcome.failed)) ∧
    (send_eth_transfer toAddr s
        ⟨Except.ok n, Except.ok bp, ge, Except.ok b, Except.ok txh,
          Except.error e⟩).result =
      some (Except.error (TxError.confirmWaitFailed e)) ∧
    (∀ m, TxError.confirmWaitFailed e ≠ TxError.sendFailed m) ∧
    ConfirmOutcome.confirmed ≠ ConfirmOutcome.failed := by
  have hnl : ¬ b < v + bp * 110 / 100 * (rawEstimate ge * 120 / 100) :=
    Nat.not_lt.mpr hge
  refine ⟨?_, ?_, ?_, ?_, ?_⟩
  · simp [send_eth_transfer, stepExcept, stepOption,
      get_gas_price_with_premium, estimate_gas_limit, hs,
      cmul_eq_some _ _ h1, cmul_eq_some _ _ h2, cmul_eq_some _ _ h3,
      cadd_eq_some _ _ h4, hnl]
  · simp [send_eth_transfer, stepExcept, stepOption,
      get_gas_price_with_premium, estimate_gas_limit, hs,
      cmul_eq_some _ _ h1, cmul_eq_some _ _ h2, cmul_eq_some _ _ h3,
      cadd_eq_some _ _ h4, hnl, hsv]
  · simp [send_eth_transfer, stepExcept, stepOption,
      get_gas_price_with_premium, estimate_gas_limit, hs,
      cmul_eq_some _ _ h1, cmul_eq_some _ _ h2, cmul_eq_some _ _ h3,
      cadd_eq_some _ _ h4, hnl]
  · intro m hcon
    exact TxError.noConfusion hcon
  · intro hcon
    exact ConfirmOutcome.noConfusion hcon

/-- Witness for C5 at concrete numbers, with failure status 0 and a
concrete wait error. -/
theorem confirmation_outcomes_case :
    (send_eth_transfer 5 "1"
        ⟨Except.ok 0, Except.ok 1000000000, Except.ok 21000,
          Except.ok 2000000000000000000, Except.ok 77,
          Except.ok (some ⟨none, none, some 1⟩)⟩).result =
      some (Except.ok (77, ConfirmOutcome.confirmed)) ∧
    (send_eth_transfer 5 "1"
        ⟨Except.ok 0, Except.ok 1000000000, Except.ok 21000,
          Except.ok 2000000000000000000, Except.ok 77,
          Except.ok (some ⟨none, none, some 0⟩)⟩).result =
      some (Except.ok (77, ConfirmOutcome.failed)) ∧
    (send_eth_transfer 5 "1"
        ⟨Except.ok 0, Except.ok 1000000000, Except.ok 21000,
          Except.ok 2000000000000000000, Except.ok 77,
          Except.error "connection dropped"⟩).result =
      some (Except.error (TxError.confirmWaitFailed "connection dropped")) ∧
    (∀ m, TxError.confirmWaitFailed "connection dropped" ≠
      TxError.sendFailed m) ∧
    ConfirmOutcome.confirmed ≠ ConfirmOutcome.failed :=
  confirmation_outcomes 5 "1" 1000000000000000000 0 1000000000
    2000000000000000000 77 (Except.ok 21000) none none 0
    "connection dropped" (by decide) (by decide) (by decide) (by decide)
    (by decide) (by decide) (by decide)

/-- A fully successful run of the pipeline, symbolically: with the amount
parsing to `v`, every remote call succeeding, no U256 overflow and a
sufficient balance, the whole `RunResult` is determined — the trace is
nonce, gas price, gas estimate, balance, send, wait (in that order), and
the result is the hash with the receipt-status outcome. -/
theorem sendEthTransfer_success_run (toAddr : Nat) (s : String)
    (v n bp b txh : Nat) (ge : Except String Nat) (rc : Receipt)
    (hs : parseUnitsEther s = Except.ok v)
    (h1 : bp * 110 < U256MOD)
    (h2 : rawEstimate ge * 120 < U256MOD)
    (h3 : bp * 110 / 100 * (rawEstimate ge * 120 / 100) < U256MOD)
    (h4 : v + bp * 110 / 100 * (rawEstimate ge * 120 / 100) < U256MOD)
    (hge : v + bp * 110 / 100 * (rawEstimate ge * 120 / 100) ≤ b) :
    send_eth_transfer toAddr s
        ⟨Except.ok n, Except.ok bp, ge, Except.ok b, Except.ok txh,
          Except.ok (some rc)⟩ =
      ⟨[Step.getNonce, Step.getGasPrice, Step.estimateGas, Step.getBalance,
         Step.sendRawTransaction, Step.waitReceipt],
        some (Except.ok (txh,
          if rc.status.getD 0 = 1 then ConfirmOutcome.confirmed
          else ConfirmOutcome.failed))⟩ := by
  have hnl : ¬ b < v + bp * 110 / 100 * (rawEstimate ge * 120 / 100) :=
    Nat.not_lt.mpr hge
  simp [send_eth_transfer, stepExcept, stepOption, get_gas_price_with_premium,
    estimate_gas_limit, hs, cmul_eq_some _ _ h1, cmul_eq_some _ _ h2,
    cmul_eq_some _ _ h3, cadd_eq_some _ _ h4, hnl]

/-- Counterexample to C6: on a fully successful concrete run, the first
remote operation of `send_eth_transfer` is the nonce query, not gas
pricing — so the claimed order (pricing, then limit estimation, then
nonce acquisition) is false: gas pricing does not precede nonce
acquisition in the trace. -/
theorem pipeline_order_claimed_false :
    (send_eth_transfer 5 "1"
        ⟨Except.ok 0, Except.ok 1000000000, Except.ok 21000,
          Except.ok 2000000000000000000, Except.ok 77,
          Except.ok (some ⟨none, none, some 1⟩)⟩).trace =
      [Step.getNonce, Step.getGasPrice, Step.estimateGas, Step.getBalance,
       Step.sendRawTransaction, Step.waitReceipt] ∧
    ¬ List.indexOf Step.getGasPrice
        (send_eth_transfer 5 "1"
          ⟨Except.ok 0, Except.ok 1000000000, Except.ok 21000,
            Except.ok 2000000000000000000, Except.ok 77,
            Except.ok (some ⟨none, none, some 1⟩)⟩).trace <
      List.indexOf Step.getNonce
        (send_eth_transfer 5 "1"
          ⟨Except.ok 0, Except.ok 1000000000, Except.ok 21000,
            Except.ok 2000000000000000000, Except.ok 77,
            Except.ok (some ⟨none, none, some 1⟩)⟩).trace := by
  have h := sendEthTransfer_success_run 5 "1" 1000000000000000000 0
    1000000000 2000000000000000000 77 (Except.ok 21000)
    ⟨none, none, some 1⟩ (by decide) (by decide) (by decide) (by decide)
    (by decide) (by decide)
  rw [h]
  exact ⟨rfl, by decide⟩

/-- C6 as amended: within one submission the steps occur in the strict
order nonce acquisition, then gas pricing, then gas-limit estimation,
then balance verification, then signing/broadcast, then the confirmation
wait — the nonce is queried first, three remote calls before signing,
not adjacent to it. -/
theorem pipeline_order_actual (toAddr : Nat) (s : String)
    (v n bp b txh : Nat) (ge : Except String Nat) (rc : Receipt)
    (hs : parseUnitsEther s = Except.ok v)
    (h1 : bp * 110 < U256MOD)
    (h2 : rawEstimate ge * 120 < U256MOD)
    (h3 : bp * 110 / 100 * (rawEstimate ge * 120 / 100) < U256MOD)
    (h4 : v + bp * 110 / 100 * (rawEstimate ge * 120 / 100) < U256MOD)
    (hge : v + bp * 110 / 100 * (rawEstimate ge * 120 / 100) ≤ b) :
    (send_eth_transfer toAddr s
        ⟨Except.ok n, Except.ok bp, ge, Except.ok b, Except.ok txh,
          Except.ok (some rc)⟩).trace =
      [Step.getNonce, Step.getGasPrice, Step.estimateGas, Step.getBalance,
       Step.sendRawTransaction, Step.waitReceipt] := by
  rw [sendEthTransfer_success_run toAddr s v n bp b txh ge rc hs h1 h2 h3
    h4 hge]

/-- Witness for the amended C6 at concrete values. -/
theorem pipeline_order_actual_case :
    (send_eth_transfer 9 "2"
        ⟨Except.ok 3, Except.ok 1000000000, Except.ok 21000,
          Except.ok 3000000000000000000, Except.ok 55,
          Except.ok (some ⟨none, none, some 1⟩)⟩).trace =
      [Step.getNonce, Step.getGasPrice, Step.estimateGas, Step.getBalance,
       Step.sendRawTransaction, Step.waitReceipt] :=
  pipeline_order_actual 9 "2" 2000000000000000000 3 1000000000
    3000000000000000000 55 (Except.ok 21000) ⟨none, none, some 1⟩
    (by decide) (by decide) (by decide) (by decide) (by decide) (by decide)

/-- The insufficient-funds exit of the pipeline, symbolically: with the
amount parsing to `v`, the prior calls succeeding without overflow and
the balance below the total cost, the result is the insufficient-funds
error carrying the balance, the total cost and their difference. -/
theorem sendEthTransfer_insufficient_result (toAddr : Nat) (s : String)
    (v n bp b : Nat) (ge st : Except String Nat)
    (wr : Except String (Option Receipt))
    (hs : parseUnitsEther s = Except.ok v)
    (h1 : bp * 110 < U256MOD)
    (h2 : rawEstimate ge * 120 < U256MOD)
    (h3 : bp * 110 / 100 * (rawEstimate ge * 120 / 100) < U256MOD)
    (h4 : v + bp * 110 / 100 * (rawEstimate ge * 120 / 100) < U256MOD)
    (hlt : b < v + bp * 110 / 100 * (rawEstimate ge * 120 / 100)) :
    (send_eth_transfer toAddr s
        ⟨Except.ok n, Except.ok bp, ge, Except.ok b, st, wr⟩).result =
      some (Except.error (TxError.insufficientFunds b
        (v + bp * 110 / 100 * (rawEstimate ge * 120 / 100))
        (v + bp * 110 / 100 * (rawEstimate ge * 120 / 100) - b))) := by
  simp [send_eth_transfer, stepExcept, stepOption, get_gas_price_with_premium,
    estimate_gas_limit, hs, cmul_eq_some _ _ h1, cmul_eq_some _ _ h2,
    cmul_eq_some _ _ h3, cadd_eq_some _ _ h4, hlt]

/-- C8: the reported shortfall is exactly `totalCost - balance`; in
particular, a balance of 100 units against a total cost of 150 units
(value 100 wei, gas price 50 wei, gas limit 1) reports a shortfall of 50
units alongside the balance and total cost. -/
theorem insufficientFunds_shortfall (toAddr : Nat) (s : String)
    (v n bp b : Nat) (ge st : Except String Nat)
    (wr : Except String (Option Receipt))
    (hs : parseUnitsEther s = Except.ok v)
    (h1 : bp * 110 < U256MOD)
    (h2 : rawEstimate ge * 120 < U256MOD)
    (h3 : bp * 110 / 100 * (rawEstimate ge * 120 / 100) < U256MOD)
    (h4 : v + bp * 110 / 100 * (rawEstimate ge * 120 / 100) < U256MOD)
    (hlt : b < v + bp * 110 / 100 * (rawEstimate ge * 120 / 100)) :
    (send_eth_transfer toAddr s
        ⟨Except.ok n, Except.ok bp, ge, Except.ok b, st, wr⟩).result =
      some (Except.error (TxError.insufficientFunds b
        (v + bp * 110 / 100 * (rawEstimate ge * 120 / 100))
        (v + bp * 110 / 100 * (rawEstimate ge * 120 / 100) - b))) ∧
    (send_eth_transfer 1 "0.0000000000000001"
        ⟨Except.ok 0, Except.ok 46, Except.ok 1, Except.ok 100,
          Except.ok 9, Except.ok none⟩).result =
      some (Except.error (TxError.insufficientFunds 100 150 50)) := by
  refine ⟨sendEthTransfer_insufficient_result toAddr s v n bp b ge st wr
    hs h1 h2 h3 h4 hlt, ?_⟩
  have h := sendEthTransfer_insufficient_result 1 "0.0000000000000001"
    100 0 46 100 (Except.ok 1) (Except.ok 9) (Except.ok none) (by decide)
    (by decide) (by decide) (by decide) (by decide) (by decide)
  simpa [rawEstimate] using h

/-- Witness for C8 at the 100-versus-150 instance. -/
theorem insufficientFunds_shortfall_case :
    (send_eth_transfer 1 "0.0000000000000001"
        ⟨Except.ok 0, Except.ok 46, Except.ok 1, Except.ok 100,
          Except.ok 9, Except.ok none⟩).result =
      some (Except.error (TxError.insufficientFunds 100 150 50)) :=
  (insufficientFunds_shortfall 1 "0.0000000000000001" 100 0 46 100
    (Except.ok 1) (Except.ok 9) (Except.ok none) (by decide) (by decide)
    (by decide) (by decide) (by decide) (by decide)).2

/-- C10: `send_eth_transfer` itself performs no destination validation:
called directly with the zero address as destination and a sufficient
balance it signs and broadcasts (the send operation is in the trace and a
hash is returned); the zero-address rejection exists only in the separate
`validate_address` function. -/
theorem sendEthTransfer_no_destination_validation :
    validate_address "0x0000000000000000000000000000000000000000" =
      Except.error "地址不能为零地址" ∧
    (send_eth_transfer 0 "1"
        ⟨Except.ok 0, Except.ok 1000000000, Except.ok 21000,
          Except.ok 2000000000000000000, Except.ok 77,
          Except.ok (some ⟨none, none, some 1⟩)⟩).result =
      some (Except.ok (77, ConfirmOutcome.confirmed)) ∧
    Step.sendRawTransaction ∈
      (send_eth_transfer 0 "1"
        ⟨Except.ok 0, Except.ok 1000000000, Except.ok 21000,
          Except.ok 2000000000000000000, Except.ok 77,
          Except.ok (some ⟨none, none, some 1⟩)⟩).trace := by
  have h := sendEthTransfer_success_run 0 "1" 1000000000000000000 0
    1000000000 2000000000000000000 77 (Except.ok 21000)
    ⟨none, none, some 1⟩ (by decide) (by decide) (by decide) (by decide)
    (by decide) (by decide)
  refine ⟨by decide, ?_, ?_⟩
  · rw [h]
    decide
  · rw [h]
    decide
